import Mathlib

/-!
Shallow embedding of the CodexSpace backend (collaborative workspace server):
the socket room-authorization handshake (`src/server.js`, `io.use`), the
`project-message` handler with its AI dispatch (`src/server.js`), the AI
orchestrator `generateResult` and `validateResponse`
(`src/services/ai.service.js`), the HTTP credential gate `authUser`
(`src/middleware/auth.middleware.js`), and the invitation workflow
(`src/services/invitation.service.js`, `src/models/invitation.model.js`).

External capabilities the JavaScript calls into (MongoDB lookups, `jwt.verify`,
the Redis blacklist, `JSON.parse`/`JSON.stringify`, the Gemini client) are
passed as function parameters; everything the repository itself computes is
translated directly from the source.
-/

/-! ## Character-list string helpers (JS string primitives) -/

/-- Does `tok` occur at the head of the list (`String.prototype.startsWith`
restricted to char lists)? -/
def tokAt : List Char → List Char → Bool
  | [], _ => true
  | _ :: _, [] => false
  | t :: ts, c :: cs => t == c && tokAt ts cs

/-- Does `tok` occur anywhere in the list (JS `String.prototype.includes`)? -/
def hasTok (tok : List Char) : List Char → Bool
  | [] => tok.isEmpty
  | c :: cs => tokAt tok (c :: cs) || hasTok tok cs

/-- JS `s.includes(pat)`. -/
def strContains (s pat : String) : Bool := hasTok pat.toList s.toList

/-- JS whitespace test for the characters `trim` strips in the inputs this
server sees. -/
def isWs (c : Char) : Bool := c == ' ' || c == '\n' || c == '\t' || c == '\r'

/-- JS `String.prototype.trim`. -/
def jsTrim (s : String) : String :=
  String.mk (((s.toList.dropWhile isWs).reverse.dropWhile isWs).reverse)

/-- JS `s.split(' ')`: split on every single space character. -/
def splitSp : List Char → List (List Char)
  | [] => [[]]
  | c :: cs =>
    if c == ' ' then [] :: splitSp cs
    else
      match splitSp cs with
      | [] => [[c]]
      | h :: t => (c :: h) :: t

/-! ## Room authorization handshake (`src/server.js` lines 30-63, `io.use`) -/

/-- Decoded JWT claims attached to a request/socket (`socket.user`,
`req.user`). -/
structure Claims where
  id : String
  email : String
deriving DecidableEq

/-- The project document fields the core reads (`src/models/project.model.js`):
`owner` and the `users` membership array, keyed by `_id`. -/
structure ProjectDoc where
  id : String
  owner : String
  users : List String
deriving DecidableEq

/-- `projectSchema.methods.isOwner` (`src/models/project.model.js` line 33). -/
def ProjectDoc.isOwner (p : ProjectDoc) (userId : String) : Bool :=
  p.owner == userId

/-- `projectSchema.methods.isMember` (`src/models/project.model.js` line 38):
owner or present in the `users` array. -/
def ProjectDoc.isMember (p : ProjectDoc) (userId : String) : Bool :=
  p.owner == userId || p.users.any (fun u => u == userId)

/-- Outcome of the socket handshake middleware: `next(new Error(...))`
rejections, or admission with the project and decoded user attached. -/
inductive HandshakeResult where
  | invalidProject
  | projectNotFound
  | tokenMissing
  | tokenInvalid
  | admitted (project : ProjectDoc) (user : Claims)
deriving DecidableEq

/-- The `io.use` socket authentication middleware (`src/server.js` lines
30-63).  `isValidObjectId` embeds `mongoose.Types.ObjectId.isValid`,
`findById` the `projectModel.findById` lookup, `verify` `jwt.verify`
(returning `none` when verification throws).  The middleware checks, in
order: syntactic project-id validity, project existence, token presence
(JS `!token`, so an empty string also counts as missing), token
verification.  It performs no membership check before admission. -/
def socketAuthMiddleware (isValidObjectId : String → Bool)
    (findById : String → Option ProjectDoc) (verify : String → Option Claims)
    (token : Option String) (projectId : String) : HandshakeResult :=
  if isValidObjectId projectId = false then .invalidProject
  else
    match findById projectId with
    | none => .projectNotFound
    | some proj =>
      match token with
      | none => .tokenMissing
      | some t =>
        if t = "" then .tokenMissing
        else
          match verify t with
          | none => .tokenInvalid
          | some decoded => .admitted proj decoded

/-- C1: the handshake admits a cryptographically valid token for an existing
project even when the decoded identity is neither owner nor member of that
project: user `u3` holds a valid token, project `p1` is owned by `u1` with
members `u1, u2`, yet the connection is admitted to the room rather than
rejected with `Forbidden`.  The spec (and the repository's own
`isOwner`/`isMember` methods, unused here) require membership enforcement at
handshake time. -/
theorem C1_handshake_admits_nonmember :
    socketAuthMiddleware (fun _ => true)
        (fun pid => if pid = "p1" then some ⟨"p1", "u1", ["u1", "u2"]⟩ else none)
        (fun t => if t = "tok" then some ⟨"u3", "eve@example.com"⟩ else none)
        (some "tok") "p1"
      = .admitted ⟨"p1", "u1", ["u1", "u2"]⟩ ⟨"u3", "eve@example.com"⟩
    ∧ ProjectDoc.isMember ⟨"p1", "u1", ["u1", "u2"]⟩ "u3" = false := by
  decide

/-- C8: the handshake performs its checks in strict order, failing with the
first violated one: (1) a syntactically invalid project id fails with
`InvalidProject` regardless of the token; (2) with a valid id, a missing
project record fails with `ProjectNotFound`; (3) with an existing project, an
absent (or empty, hence JS-falsy) token fails as token-missing; (4) a present
token that does not verify fails as token-invalid. -/
theorem C8_handshake_check_order (isValidObjectId : String → Bool)
    (findById : String → Option ProjectDoc) (verify : String → Option Claims)
    (token : Option String) (projectId : String) :
    (isValidObjectId projectId = false →
      socketAuthMiddleware isValidObjectId findById verify token projectId
        = .invalidProject)
    ∧ (isValidObjectId projectId = true → findById projectId = none →
      socketAuthMiddleware isValidObjectId findById verify token projectId
        = .projectNotFound)
    ∧ (∀ proj, isValidObjectId projectId = true →
      findById projectId = some proj → (token = none ∨ token = some "") →
      socketAuthMiddleware isValidObjectId findById verify token projectId
        = .tokenMissing)
    ∧ (∀ proj t, isValidObjectId projectId = true →
      findById projectId = some proj → token = some t → t ≠ "" →
      verify t = none →
      socketAuthMiddleware isValidObjectId findById verify token projectId
        = .tokenInvalid) := by
  refine ⟨?_, ?_, ?_, ?_⟩
  · intro h
    simp [socketAuthMiddleware, h]
  · intro h hfind
    simp [socketAuthMiddleware, h, hfind]
  · intro proj h hfind htok
    rcases htok with htok | htok <;> simp [socketAuthMiddleware, h, hfind, htok]
  · intro proj t h hfind htok hne hv
    simp [socketAuthMiddleware, h, hfind, htok, hne, hv]

/-- Witness for C8 at a concrete input: a syntactically invalid project id is
rejected with `InvalidProject` even though a valid token is presented. -/
theorem C8_handshake_check_order_witness :
    socketAuthMiddleware (fun _ => false)
        (fun _ => some ⟨"p1", "u1", ["u1"]⟩)
        (fun _ => some ⟨"u1", "a@b.c"⟩) (some "tok") "not-an-objectid"
      = .invalidProject :=
  (C8_handshake_check_order (fun _ => false) (fun _ => some ⟨"p1", "u1", ["u1"]⟩)
    (fun _ => some ⟨"u1", "a@b.c"⟩) (some "tok") "not-an-objectid").1 rfl

/-! ## Credential & session gate (`src/middleware/auth.middleware.js`) -/

/-- Token extraction in `authUser`:
`req.cookies?.token || (authHeader && authHeader.startsWith("Bearer ") ?
authHeader.split(" ")[1] : null)`.  JS `||` treats the empty string as
falsy, and `split(" ")[1]` returns the second space-separated segment
(possibly the empty string) or `undefined`. -/
def extractToken (cookieToken authHeader : Option String) : Option String :=
  let headerToken : Option String :=
    match authHeader with
    | none => none
    | some h =>
      if h = "" then none
      else if tokAt "Bearer ".toList h.toList then
        ((splitSp h.toList).map String.mk).get? 1
      else none
  match cookieToken with
  | none => headerToken
  | some c => if c = "" then headerToken else some c

/-- Outcome of the HTTP credential gate: either a `401` JSON denial (with
the flag recording the blacklist path's `clearCookie` side effect) or the
decoded claims attached as `req.user` with control passed to `next()`. -/
inductive AuthOutcome where
  | denied (status : Nat) (body : String) (cookieCleared : Bool)
  | passed (user : Claims)
deriving DecidableEq

/-- `authUser` (`src/middleware/auth.middleware.js` lines 4-34).  `blacklist`
embeds `redisClient.get` (truthy hit), `verify` embeds `jwt.verify`
(`none` when verification throws, landing in the catch block). -/
def authUser (blacklist : String → Bool) (verify : String → Option Claims)
    (cookieToken authHeader : Option String) : AuthOutcome :=
  match extractToken cookieToken authHeader with
  | none => .denied 401 "Unauthorized User" false
  | some t =>
    if t = "" then .denied 401 "Unauthorized User" false
    else if blacklist t then .denied 401 "Unauthorized User" true
    else
      match verify t with
      | none => .denied 401 "Unauthorized User" false
      | some decoded => .passed decoded

/-- C9: the credential gate attaches the decoded claims and passes control
onward exactly when a token is present, not blacklisted, and verifies; every
run either passes or yields the single generic `401 "Unauthorized User"`
denial, so missing, revoked and invalid tokens are indistinguishable in the
response status and body. -/
theorem C9_credential_gate (blacklist : String → Bool)
    (verify : String → Option Claims) (cookieToken authHeader : Option String) :
    (∀ t c, extractToken cookieToken authHeader = some t → t ≠ "" →
      blacklist t = false → verify t = some c →
      authUser blacklist verify cookieToken authHeader = .passed c)
    ∧ ((∃ c, authUser blacklist verify cookieToken authHeader = .passed c)
      ∨ (∃ cc, authUser blacklist verify cookieToken authHeader
          = .denied 401 "Unauthorized User" cc))
    ∧ (∀ c, authUser blacklist verify cookieToken authHeader = .passed c →
      ∃ t, extractToken cookieToken authHeader = some t ∧ t ≠ ""
        ∧ blacklist t = false ∧ verify t = some c) := by
  refine ⟨?_, ?_, ?_⟩
  · intro t c ht hne hb hv
    simp [authUser, ht, hne, hb, hv]
  · unfold authUser
    rcases hx : extractToken cookieToken authHeader with _ | t
    · exact Or.inr ⟨false, rfl⟩
    · by_cases hne : t = ""
      · exact Or.inr ⟨false, by simp [hne]⟩
      · rcases hb : blacklist t with _ | _
        · rcases hv : verify t with _ | c
          · exact Or.inr ⟨false, by simp [hne, hb, hv]⟩
          · exact Or.inl ⟨c, by simp [hne, hb, hv]⟩
        · exact Or.inr ⟨true, by simp [hne, hb]⟩
  · intro c hpass
    unfold authUser at hpass
    rcases hx : extractToken cookieToken authHeader with _ | t <;> rw [hx] at hpass
    · exact absurd hpass (by simp)
    · by_cases hne : t = ""
      · simp [hne] at hpass
      · rcases hb : blacklist t with _ | _
        · rcases hv : verify t with _ | c'
          · simp [hne, hb, hv] at hpass
          · simp [hne, hb, hv] at hpass
            exact ⟨t, rfl, hne, hb, by rw [hv, hpass]⟩
        · simp [hne, hb] at hpass

/-- Witness for C9 at concrete inputs: a present, non-blacklisted,
verifying bearer token passes with the decoded claims attached. -/
theorem C9_credential_gate_witness :
    authUser (fun _ => false)
        (fun t => if t = "tok123" then some ⟨"u1", "a@b.c"⟩ else none)
        none (some "Bearer tok123")
      = .passed ⟨"u1", "a@b.c"⟩ :=
  (C9_credential_gate (fun _ => false)
      (fun t => if t = "tok123" then some ⟨"u1", "a@b.c"⟩ else none)
      none (some "Bearer tok123")).1 "tok123" ⟨"u1", "a@b.c"⟩
    (by decide) (by decide) rfl (by decide)

/-! ## AI response orchestrator (`src/services/ai.service.js`) -/

/-- One `file` record inside a `fileTree` entry
(`{ file: { contents: ... } }`). -/
structure FileRec where
  contents : String
deriving DecidableEq

/-- One `fileTree` entry; `file` is optional because the parsed JSON may
lack it (checked by `validateResponse`). -/
structure FileData where
  file : Option FileRec
deriving DecidableEq

/-- The AI response envelope: the JSON object `generateResult` returns.
Optional fields model JS properties that may be absent on the parsed
object; `error` is `false` when the property is absent or `false` (both
JS-falsy). -/
structure Envelope where
  type : Option String := none
  text : Option String := none
  fileTree : Option (List (String × FileData)) := none
  buildCommand : Option String := none
  startCommand : Option String := none
  error : Bool := false
  errorType : Option String := none
  note : Option String := none
  errorMessage : Option String := none
  retryAfter : Option Nat := none
  suggestion : Option String := none
deriving DecidableEq

/-- Outcome of one `model.generateContent` call: the response text, or the
message of the error it threw. -/
inductive CallOutcome where
  | ok (text : String)
  | err (msg : String)

/-- Result of `generateResult` plus its observable effect trace: the
returned envelope (`none` only if the retry loop could run zero times,
which cannot happen since `maxRetries ≥ 1`), the backoff sleeps performed
in order (milliseconds), and the number of `model.generateContent` calls
made. -/
structure GenOutput where
  envelope : Option Envelope
  sleeps : List Nat
  calls : Nat
deriving DecidableEq

/-- `ascii` backquote, to spell the fence marker without backtick literals. -/
def backquoteChar : Char := Char.ofNat 96

/-- One left-to-right pass of the regex replace removing every occurrence of
three backquotes followed by `json` and an optional single newline
(`.replace(/xxxjson\n?/g, '')` where `xxx` is three backquotes). -/
def stripJsonFencePass : List Char → List Char
  | a :: b :: c :: d :: e :: f :: g :: rest =>
    if a == backquoteChar && b == backquoteChar && c == backquoteChar
        && d == 'j' && e == 's' && f == 'o' && g == 'n' then
      match rest with
      | '\n' :: rs => stripJsonFencePass rs
      | other => stripJsonFencePass other
    else
      a :: stripJsonFencePass (b :: c :: d :: e :: f :: g :: rest)
  | l => l

/-- One left-to-right pass removing every occurrence of three backquotes and
an optional single newline (`.replace(/xxx\n?/g, '')`). -/
def stripFencePass : List Char → List Char
  | a :: b :: c :: rest =>
    if a == backquoteChar && b == backquoteChar && c == backquoteChar then
      match rest with
      | '\n' :: rs => stripFencePass rs
      | other => stripFencePass other
    else
      a :: stripFencePass (b :: c :: rest)
  | l => l

/-- The fenced-markdown cleanup `generateResult` applies before
`JSON.parse` (`src/services/ai.service.js` lines 174-177). -/
def cleanText (s : String) : String :=
  jsTrim (String.mk (stripFencePass (stripJsonFencePass s.toList)))

/-- Quota/rate-limit classification
(`error.message.includes('quota') || ... '429' ... 'rate limit'`). -/
def quotaMsg (m : String) : Bool :=
  strContains m "quota" || strContains m "429" || strContains m "rate limit"

/-- Auth classification
(`'API key' || '401' || '403'`). -/
def authMsg (m : String) : Bool :=
  strContains m "API key" || strContains m "401" || strContains m "403"

/-- Network classification (`'fetch' || 'network'`). -/
def networkMsg (m : String) : Bool :=
  strContains m "fetch" || strContains m "network"

/-- The degraded-parse fallback envelope returned when `JSON.parse` fails
(`src/services/ai.service.js` lines 185-190): a `chat` envelope carrying the
original raw text verbatim with `error: false` and an explanatory note. -/
def parseFallback (text : String) : Envelope :=
  { type := some "chat", text := some text, error := false,
    note := some "Response was not in JSON format" }

/-- The terminal quota envelope (lines 212-219).  `retryAfter` is
`Math.ceil(suggestedDelay / 1000)` when a (truthy) provider hint was parsed
from the message, else `60`. -/
def quotaEnvelope (suggestedDelay : Option Nat) : Envelope :=
  { type := some "chat",
    text := some "API quota exceeded. Please wait a few minutes before trying again.",
    error := true, errorType := some "quota",
    retryAfter := some (match suggestedDelay with
      | some d => if d == 0 then 60 else (d + 999) / 1000
      | none => 60),
    suggestion := some "Consider upgrading your API plan or switching to gemini-2.5-flash-lite for higher limits" }

/-- The immediate auth-error envelope (lines 224-229). -/
def authEnvelope : Envelope :=
  { type := some "chat",
    text := some "API key is invalid or missing. Please check your GOOGLE_AI_KEY environment variable.",
    error := true, errorType := some "auth" }

/-- The terminal network envelope (lines 241-246). -/
def networkEnvelope : Envelope :=
  { type := some "chat",
    text := some "Network error. Please check your internet connection.",
    error := true, errorType := some "network" }

/-- The terminal generic envelope (lines 251-257). -/
def unknownEnvelope (msg : String) : Envelope :=
  { type := some "chat",
    text := some "AI is currently unavailable. Please try again later.",
    error := true, errorType := some "unknown", errorMessage := some msg }

/-- The quota-branch retry delay: `suggestedDelay || (initialDelay *
Math.pow(2, attempt))`, where a zero (JS-falsy) hint falls back to the
exponential backoff. -/
def quotaRetryDelay (initialDelay attempt : Nat) (suggested : Option Nat) : Nat :=
  match suggested with
  | some d => if d == 0 then initialDelay * 2 ^ attempt else d
  | none => initialDelay * 2 ^ attempt

/-- Instruction produced by the catch-block classification: either return
this envelope now, or sleep the given milliseconds and retry. -/
inductive StepOut where
  | done (e : Envelope)
  | retryAfterSleep (ms : Nat)
deriving DecidableEq

/-- The catch block of `generateResult` (lines 195-263): classify the error
message and decide between immediate return, terminal return, and
backoff-retry.  `retryHintMs` embeds the `/retry in (\d+\.?\d*)s/i` match,
returning the suggested delay in milliseconds when the message carries
one. -/
def classifyCatch (retryHintMs : String → Option Nat)
    (initialDelay maxRetries attempt : Nat) (msg : String) : StepOut :=
  let isLastAttempt := attempt == maxRetries - 1
  if quotaMsg msg then
    let suggested := retryHintMs msg
    if isLastAttempt = false then
      .retryAfterSleep (quotaRetryDelay initialDelay attempt suggested)
    else .done (quotaEnvelope suggested)
  else if authMsg msg then .done authEnvelope
  else if networkMsg msg then
    if isLastAttempt = false then
      .retryAfterSleep (initialDelay * 2 ^ attempt)
    else .done networkEnvelope
  else if isLastAttempt then .done (unknownEnvelope msg)
  else .retryAfterSleep (initialDelay * 2 ^ attempt)

/-- The body of one loop iteration up to the catch: the try block either
produces an envelope (successful parse or degraded-parse fallback) or
throws a message; the second component is the number of backend calls the
iteration made (1 unless a validation guard threw first). -/
def tryAttempt (hasKey : Bool) (backend : Nat → CallOutcome)
    (parse : String → Option Envelope) (prompt : String) (attempt : Nat) :
    Except String Envelope × Nat :=
  if prompt = "" then
    (.error "Invalid prompt: prompt must be a non-empty string", 0)
  else if hasKey = false then
    (.error "GOOGLE_AI_KEY environment variable is not set", 0)
  else
    match backend attempt with
    | .ok text =>
      match parse (cleanText text) with
      | some env => (.ok env, 1)
      | none => (.ok (parseFallback text), 1)
    | .err msg => (.error msg, 1)

/-- The retry loop of `generateResult` (lines 149-265).  `fuel` counts the
remaining iterations (`maxRetries - attempt`), so the recursion mirrors the
`for (attempt = 0; attempt < maxRetries; attempt++)` loop exactly; `sleeps`
accumulates performed backoffs in reverse. -/
def genLoop (hasKey : Bool) (backend : Nat → CallOutcome)
    (parse : String → Option Envelope) (retryHintMs : String → Option Nat)
    (prompt : String) (initialDelay maxRetries : Nat) :
    Nat → Nat → Nat → List Nat → GenOutput
  | 0, _, calls, sleeps => ⟨none, sleeps.reverse, calls⟩
  | fuel + 1, attempt, calls, sleeps =>
    match tryAttempt hasKey backend parse prompt attempt with
    | (.ok env, dc) => ⟨some env, sleeps.reverse, calls + dc⟩
    | (.error msg, dc) =>
      match classifyCatch retryHintMs initialDelay maxRetries attempt msg with
      | .done e => ⟨some e, sleeps.reverse, calls + dc⟩
      | .retryAfterSleep ms =>
        genLoop hasKey backend parse retryHintMs prompt initialDelay maxRetries
          fuel (attempt + 1) (calls + dc) (ms :: sleeps)

/-- `generateResult` (lines 144-266).  `options.maxRetries || 3` and
`options.initialDelay || 2000` map JS-falsy (absent or zero) options to the
defaults.  The Gemini client is the single backend the function ever
consults; `hasKey` embeds the `GOOGLE_AI_KEY` presence check. -/
def generateResult (hasKey : Bool) (backend : Nat → CallOutcome)
    (parse : String → Option Envelope) (retryHintMs : String → Option Nat)
    (prompt : String) (optMaxRetries optInitialDelay : Option Nat) : GenOutput :=
  let maxRetries := match optMaxRetries with
    | some n => if n == 0 then 3 else n
    | none => 3
  let initialDelay := match optInitialDelay with
    | some n => if n == 0 then 2000 else n
    | none => 2000
  genLoop hasKey backend parse retryHintMs prompt initialDelay maxRetries
    maxRetries 0 0 []

/-- `validateResponse` (`src/services/ai.service.js` lines 372-402): `none`
models a null/undefined/non-object argument. -/
def validateResponse (response : Option Envelope) : Bool :=
  match response with
  | none => false
  | some r =>
    match r.text with
    | none => false
    | some t =>
      if t = "" then false
      else
        match r.type with
        | none => false
        | some ty =>
          if ty = "" then false
          else if (ty == "chat" || ty == "explanation" || ty == "code") = false
            then false
          else if ty == "code" then
            match r.fileTree with
            | none => false
            | some ft =>
              ft.all (fun ent =>
                match ent.2.file with
                | none => false
                | some fr => fr.contents != "")
          else true

/-- C2 counterexample: with the primary backend throwing `"429"` on every
attempt (and default options, so `maxRetries = 3`), `generateResult`
backs off 2000 ms then 4000 ms and then returns the terminal quota envelope
having made exactly its 3 calls to the one Gemini backend it has — the
give-up happens directly at primary exhaustion; no secondary backend exists
in `src/services/ai.service.js` to be attempted before it, contrary to the
claim. -/
theorem C2_no_secondary_backend_counterexample :
    generateResult true (fun _ => .err "429") (fun _ => none) (fun _ => none)
        "p" none none
      = ⟨some (quotaEnvelope none), [2000, 4000], 3⟩
    ∧ (quotaEnvelope none).error = true
    ∧ (quotaEnvelope none).errorType = some "quota" := by
  decide

/-- C2 (amended): for every prompt whose backend call raises a message
containing `quota`/`429`/`rate limit` on each attempt, `generateResult`
classifies the error as quota and, while attempts remain, sleeps
`initialDelay * 2^attempt` ms — overridden by a provider-supplied retry
hint when the message carries one — before retrying the same single
backend; on exhaustion (3 attempts by default) it returns the terminal
`chat`-type envelope with `error = true` and `errorType = quota`.  There is
no secondary backend. -/
theorem C2_quota_backoff_exhaustion (msgs : Nat → String)
    (parse : String → Option Envelope) (retryHintMs : String → Option Nat)
    (prompt : String) (hp : prompt ≠ "")
    (hq : ∀ i, quotaMsg (msgs i) = true) :
    generateResult true (fun i => .err (msgs i)) parse retryHintMs prompt
        none none
      = ⟨some (quotaEnvelope (retryHintMs (msgs 2))),
         [quotaRetryDelay 2000 0 (retryHintMs (msgs 0)),
          quotaRetryDelay 2000 1 (retryHintMs (msgs 1))], 3⟩
    ∧ (quotaEnvelope (retryHintMs (msgs 2))).type = some "chat"
    ∧ (quotaEnvelope (retryHintMs (msgs 2))).error = true
    ∧ (quotaEnvelope (retryHintMs (msgs 2))).errorType = some "quota" := by
  refine ⟨?_, rfl, rfl, rfl⟩
  simp [generateResult, genLoop, tryAttempt, classifyCatch, hp, hq]

/-- Witness for C2 (amended) at concrete inputs: every attempt fails with
`"You exceeded your quota, retry in 5s"` carrying a 5000 ms provider hint,
so both backoffs use the hint instead of `2000 * 2^attempt`, and the
terminal quota envelope reports `retryAfter = 5`. -/
theorem C2_quota_backoff_exhaustion_witness :
    generateResult true
        (fun _ => .err "You exceeded your quota, retry in 5s")
        (fun _ => none) (fun _ => some 5000) "make an app" none none
      = ⟨some (quotaEnvelope (some 5000)), [5000, 5000], 3⟩
    ∧ (quotaEnvelope (some 5000)).retryAfter = some 5 := by
  have h := C2_quota_backoff_exhaustion
    (fun _ => "You exceeded your quota, retry in 5s") (fun _ => none)
    (fun _ => some 5000) "make an app" (by decide) (fun _ => rfl)
  exact ⟨h.1, by decide⟩

/-- C5: for every backend text whose cleaned form (fenced code-block markers
stripped) fails JSON parsing, `generateResult` does not raise: it returns,
after a single backend call and no retries, the degraded envelope with
`type = chat`, `error = false`, an explanatory note, and the original raw
backend text preserved verbatim in `text`. -/
theorem C5_parse_failure_degrades (backend : Nat → CallOutcome) (text : String)
    (hb : backend 0 = .ok text) (parse : String → Option Envelope)
    (hparse : parse (cleanText text) = none)
    (retryHintMs : String → Option Nat) (prompt : String) (hp : prompt ≠ "") :
    generateResult true backend parse retryHintMs prompt none none
      = ⟨some (parseFallback text), [], 1⟩
    ∧ parseFallback text
      = { type := some "chat", text := some text, error := false,
          note := some "Response was not in JSON format" } := by
  constructor
  · simp [generateResult, genLoop, tryAttempt, hb, hparse, hp]
  · rfl

/-- Witness for C5 at concrete inputs: a backend answering plain prose. -/
theorem C5_parse_failure_degrades_witness :
    generateResult true (fun _ => .ok "Hello! How can I help?") (fun _ => none)
        (fun _ => none) "hi" none none
      = ⟨some (parseFallback "Hello! How can I help?"), [], 1⟩
    ∧ (parseFallback "Hello! How can I help?").text
        = some "Hello! How can I help?" := by
  have h := C5_parse_failure_degrades (fun _ => .ok "Hello! How can I help?")
    "Hello! How can I help?" rfl (fun _ => none) rfl (fun _ => none) "hi"
    (by decide)
  exact ⟨h.1, by decide⟩

/-! ## The `project-message` socket handler (`src/server.js` lines 71-169) -/

/-- A dynamically-typed inbound `data.message` value. -/
inductive JVal where
  | vstr (s : String)
  | vnum (n : Int)
  | vbool (b : Bool)
  | vnull
deriving DecidableEq

/-- The payload of an AI-attributed `project-message` emission (sender is
always the synthetic `{_id: 'ai', email: 'AI'}`). -/
structure AiPayload where
  message : Option String
  senderId : String
  senderEmail : String
  fileTree : Option (List (String × FileData)) := none
  buildCommand : Option String := none
  startCommand : Option String := none
  error : Bool := false
  errorType : Option String := none
deriving DecidableEq

/-- One socket emission the handler performs, in order:
`socket.emit('error', ...)` back to the sender only, the broadcast of the
original message to the rest of the room, an `ai-typing` event to the
whole room, or an AI-attributed `project-message` to the whole room. -/
inductive SockEvent where
  | errorToSender (msg : String)
  | broadcastOriginal
  | typing (isTyping : Bool)
  | aiMessage (p : AiPayload)
deriving DecidableEq

/-- The canned envelope for an empty prompt (lines 91-97). -/
def cannedPromptPayload : AiPayload :=
  { message := some "Please provide a prompt after @ai",
    senderId := "ai", senderEmail := "AI" }

/-- The payload emitted when `generateResult` itself throws (lines
154-161). -/
def aiCatchPayload : AiPayload :=
  { message := some "Sorry, I encountered an error processing your request. Please try again.",
    senderId := "ai", senderEmail := "AI", error := true }

/-- The payload emitted when the result envelope has `error` set (lines
110-118). -/
def aiErrorPayload (r : Envelope) : AiPayload :=
  { message := r.text, senderId := "ai", senderEmail := "AI",
    error := true, errorType := r.errorType }

/-- The structured payload emitted when the result carries a `fileTree`
(lines 126-135). -/
def aiCodePayload (r : Envelope) (ft : List (String × FileData)) : AiPayload :=
  { message := r.text, senderId := "ai", senderEmail := "AI",
    fileTree := some ft, buildCommand := r.buildCommand,
    startCommand := r.startCommand }

/-- The plain-text payload (lines 138-144):
`result.text || JSON.stringify(result)` with JS-falsy empty text falling
back to the stringified envelope. -/
def aiTextPayload (stringify : Envelope → String) (r : Envelope) : AiPayload :=
  { message := some (match r.text with
      | some t => if t = "" then stringify r else t
      | none => stringify r),
    senderId := "ai", senderEmail := "AI" }

/-- `message.replace('@ai', '')`: JS `replace` with a string pattern removes
only the first occurrence. -/
def removeFirstAi : List Char → List Char
  | a :: b :: c :: rest =>
    if a == '@' && b == 'a' && c == 'i' then rest
    else a :: removeFirstAi (b :: c :: rest)
  | l => l

/-- The prompt extraction `message.replace('@ai', '').trim()` (line 88). -/
def stripAiTrigger (m : String) : String :=
  jsTrim (String.mk (removeFirstAi m.toList))

/-- The `project-message` handler (`src/server.js` lines 71-169), as the
ordered list of emissions plus the number of `generateResult` dispatches.
`gen` embeds `await generateResult(prompt)`, with `Except.error` modelling a
thrown exception (caught at line 149); `stringify` embeds
`JSON.stringify`. -/
def handleProjectMessage (gen : String → Except String Envelope)
    (stringify : Envelope → String) (data : Option JVal) :
    List SockEvent × Nat :=
  match data with
  | some (.vstr m) =>
    if m = "" then ([.errorToSender "Invalid message format"], 0)
    else if strContains m "@ai" then
      let prompt := stripAiTrigger m
      if prompt = "" then
        ([.broadcastOriginal, .typing true,
          .aiMessage cannedPromptPayload, .typing false], 0)
      else
        match gen prompt with
        | .error _ =>
          ([.broadcastOriginal, .typing true, .typing false,
            .aiMessage aiCatchPayload], 1)
        | .ok result =>
          if result.error then
            ([.broadcastOriginal, .typing true, .typing false,
              .aiMessage (aiErrorPayload result)], 1)
          else
            match result.fileTree with
            | some ft =>
              ([.broadcastOriginal, .typing true, .typing false,
                .aiMessage (aiCodePayload result ft)], 1)
            | none =>
              ([.broadcastOriginal, .typing true, .typing false,
                .aiMessage (aiTextPayload stringify result)], 1)
    else ([.broadcastOriginal], 0)
  | _ => ([.errorToSender "Invalid message format"], 0)

/-- The flag of the last `ai-typing` event in an emission list, if any. -/
def lastTyping : List SockEvent → Option Bool
  | [] => none
  | .typing b :: rest =>
    match lastTyping rest with
    | some x => some x
    | none => some b
  | _ :: rest => lastTyping rest

/-- Index of the first `ai-typing {isTyping:false}` emission. -/
def firstTypingFalseIdx : List SockEvent → Option Nat
  | [] => none
  | .typing false :: _ => some 0
  | _ :: rest => (firstTypingFalseIdx rest).map (fun n => n + 1)

/-- Index of the last AI-attributed `project-message` emission. -/
def lastAiMessageIdx : List SockEvent → Option Nat
  | [] => none
  | e :: rest =>
    match lastAiMessageIdx rest with
    | some i => some (i + 1)
    | none =>
      match e with
      | .aiMessage _ => some 0
      | _ => none

/-- Does some `ai-typing {isTyping:false}` emission precede the final AI
response envelope (vacuously true when no envelope is emitted)? -/
def clearedBeforeFinal (evts : List SockEvent) : Bool :=
  match firstTypingFalseIdx evts, lastAiMessageIdx evts with
  | some i, some j => decide (i < j)
  | some _, none => true
  | none, some _ => false
  | none, none => true

/-- C3 counterexample: on the empty-prompt outcome path the handler emits
the final (canned) response envelope FIRST and clears the typing indicator
only afterwards (`src/server.js` lines 90-99), so `ai-typing
{isTyping:false}` is not emitted before the final envelope on every outcome
path as claimed. -/
theorem C3_empty_prompt_order_counterexample :
    (handleProjectMessage (fun _ => .error "unused") (fun _ => "")
        (some (.vstr "@ai "))).1
      = [.broadcastOriginal, .typing true, .aiMessage cannedPromptPayload,
         .typing false]
    ∧ clearedBeforeFinal
        (handleProjectMessage (fun _ => .error "unused") (fun _ => "")
          (some (.vstr "@ai "))).1 = false := by
  decide

/-- C3 (amended): for every AI-triggered message the handler emits
`ai-typing {isTyping:true}` before dispatching and always eventually emits
`ai-typing {isTyping:false}`: on every path that dispatches the request
(success, degraded parse, error) the clear precedes the final response
envelope, while on the empty-prompt path it follows the canned envelope;
in all cases the last typing event emitted is `{isTyping:false}`, so the
indicator is never left on. -/
theorem C3_typing_cleared (gen : String → Except String Envelope)
    (stringify : Envelope → String) (data : Option JVal) :
    lastTyping (handleProjectMessage gen stringify data).1 ≠ some true
    ∧ ((handleProjectMessage gen stringify data).2 ≠ 0 →
        clearedBeforeFinal (handleProjectMessage gen stringify data).1 = true)
    ∧ (∀ m, data = some (.vstr m) → m ≠ "" → strContains m "@ai" = true →
        SockEvent.typing true ∈ (handleProjectMessage gen stringify data).1
        ∧ SockEvent.typing false
            ∈ (handleProjectMessage gen stringify data).1) := by
  rcases data with _ | jv
  · simp [handleProjectMessage, lastTyping]
  · rcases jv with m | n | b | _
    case vstr =>
      by_cases hm : m = ""
      · simp [handleProjectMessage, hm, lastTyping]
      · by_cases hai : strContains m "@ai"
        · by_cases hpr : stripAiTrigger m = ""
          · simp [handleProjectMessage, hm, hai, hpr, lastTyping,
              clearedBeforeFinal, firstTypingFalseIdx, lastAiMessageIdx]
          · rcases hg : gen (stripAiTrigger m) with msg | result
            · simp [handleProjectMessage, hm, hai, hpr, hg, lastTyping,
                clearedBeforeFinal, firstTypingFalseIdx, lastAiMessageIdx]
            · by_cases herr : result.error
              · simp [handleProjectMessage, hm, hai, hpr, hg, herr, lastTyping,
                  clearedBeforeFinal, firstTypingFalseIdx, lastAiMessageIdx]
              · rcases hft : result.fileTree with _ | ft
                · simp [handleProjectMessage, hm, hai, hpr, hg, herr, hft,
                    lastTyping, clearedBeforeFinal, firstTypingFalseIdx,
                    lastAiMessageIdx]
                · simp [handleProjectMessage, hm, hai, hpr, hg, herr, hft,
                    lastTyping, clearedBeforeFinal, firstTypingFalseIdx,
                    lastAiMessageIdx]
        · simp [handleProjectMessage, hm, hai, lastTyping]
    all_goals simp [handleProjectMessage, lastTyping]

/-- Witness for C3 (amended) at concrete inputs: a dispatched chat request
clears the indicator before the final envelope, and the typing-on event was
emitted. -/
theorem C3_typing_cleared_witness :
    clearedBeforeFinal
        (handleProjectMessage
          (fun _ => Except.ok { type := some "chat", text := some "hi there" })
          (fun _ => "\x7b\x7d") (some (.vstr "hello @ai greet"))).1 = true
    ∧ SockEvent.typing true
        ∈ (handleProjectMessage
            (fun _ => Except.ok { type := some "chat", text := some "hi there" })
            (fun _ => "\x7b\x7d") (some (.vstr "hello @ai greet"))).1 := by
  have h := C3_typing_cleared
    (fun _ => Except.ok { type := some "chat", text := some "hi there" })
    (fun _ => "\x7b\x7d") (some (.vstr "hello @ai greet"))
  exact ⟨h.2.1 (by decide),
    (h.2.2 "hello @ai greet" rfl (by decide) (by decide)).1⟩

/-- C6: for every chat message containing the `@ai` trigger whose remainder
after stripping the first occurrence of the trigger and trimming is empty,
the handler emits the canned `chat`-type response asking for a prompt and
makes zero `generateResult` dispatches. -/
theorem C6_empty_prompt_short_circuit (gen : String → Except String Envelope)
    (stringify : Envelope → String) (m : String) (hm : m ≠ "")
    (hai : strContains m "@ai" = true) (hempty : stripAiTrigger m = "") :
    handleProjectMessage gen stringify (some (.vstr m))
      = ([.broadcastOriginal, .typing true, .aiMessage cannedPromptPayload,
          .typing false], 0) := by
  simp [handleProjectMessage, hm, hai, hempty]

/-- Witness for C6 at a concrete input: the message `"@ai   "`, blank after
stripping the trigger. -/
theorem C6_empty_prompt_short_circuit_witness :
    handleProjectMessage (fun _ => .error "unused-backend") (fun _ => "\x7b\x7d")
        (some (.vstr "@ai   "))
      = ([.broadcastOriginal, .typing true, .aiMessage cannedPromptPayload,
          .typing false], 0) :=
  C6_empty_prompt_short_circuit (fun _ => .error "unused-backend")
    (fun _ => "\x7b\x7d") "@ai   " (by decide) (by decide) (by decide)

/-- A well-formed-JSON backend response that parses to a `code`-type
envelope whose single `fileTree` entry has empty `contents`. -/
def badCodeEnvelope : Envelope :=
  { type := some "code", text := some "Here is your project",
    fileTree := some [("app.js", ⟨some ⟨""⟩⟩)] }

/-- What the room receives for `badCodeEnvelope`: the structured AI
`project-message` carrying the empty-contents `fileTree`. -/
def badCodeDelivered : AiPayload :=
  { message := some "Here is your project", senderId := "ai",
    senderEmail := "AI", fileTree := some [("app.js", ⟨some ⟨""⟩⟩)] }

/-- C7: the delivery path never runs `validateResponse`.  A backend response
parsing to a `code`-type envelope whose single `fileTree` entry has EMPTY
file contents is returned verbatim by `generateResult` and delivered to the
room by the handler with that empty-contents `fileTree`, even though the
repository's own `validateResponse` rejects exactly this envelope — so the
claimed invariant (`type = code` implies every `fileTree` entry carries
non-empty contents) is violated by the delivered envelope. -/
theorem C7_code_envelope_empty_contents_delivered :
    (generateResult true
        (fun _ => .ok "\x7b\"type\":\"code\",\"text\":\"Here is your project\",\"fileTree\":\x7b\"app.js\":\x7b\"file\":\x7b\"contents\":\"\"\x7d\x7d\x7d\x7d")
        (fun _ => some badCodeEnvelope)
        (fun _ => none) "make an app" none none).envelope
      = some badCodeEnvelope
    ∧ validateResponse (some badCodeEnvelope) = false
    ∧ (handleProjectMessage (fun _ => Except.ok badCodeEnvelope)
        (fun _ => "\x7b\x7d") (some (.vstr "@ai make an app"))).1
      = [.broadcastOriginal, .typing true, .typing false,
         .aiMessage badCodeDelivered] := by
  decide

/-! ## Invitation workflow (`src/services/invitation.service.js`,
`src/models/invitation.model.js`) -/

deriving instance DecidableEq for Except

/-- An invitation document. -/
structure InvitationRec where
  id : String
  project : String
  sender : String
  recipient : String
  status : String
deriving DecidableEq

/-- A MongoDB index declaration: key spec plus whether the index enforces
uniqueness. -/
structure IndexDef where
  keys : List (String × Int)
  unique : Bool
deriving DecidableEq

/-- `invitationSchema.index({ project: 1, recipient: 1, status: 1 })`
(`src/models/invitation.model.js` line 31).  No options object is passed,
so mongoose's default applies and the index is NOT unique — although the
adjacent source comment says "Index to prevent duplicate pending
invitations" and `createInvitation` handles the duplicate-key error code
11000 that only a unique index could raise. -/
def invitationPendingIndex : IndexDef :=
  { keys := [("project", 1), ("recipient", 1), ("status", 1)],
    unique := false }

/-- Two invitation documents collide on the declared index key. -/
def sameIndexKey (a b : InvitationRec) : Bool :=
  a.project == b.project && a.recipient == b.recipient && a.status == b.status

/-- Storage-layer insert admission: a unique index rejects an insert whose
key collides with an existing document (surfacing error code 11000); a
non-unique index admits everything. -/
def insertAllowed (idx : IndexDef) (existing : List InvitationRec)
    (r : InvitationRec) : Bool :=
  if idx.unique then existing.all (fun e => !(sameIndexKey e r)) else true

/-- `createInvitation` (`src/services/invitation.service.js` lines 5-69)
with its read and its write separated: `checkDb` is the snapshot the
`findOne({project, recipient, status:'pending'})` existence check reads,
`storeDb` the storage state the `Invitation.create` insert applies to.  In
a single sequential call the two coincide (`createInvitation` below); in
the check-then-insert race they differ.  The insert is admitted subject to
`invitationPendingIndex`; a rejected insert surfaces as the error-11000
branch. -/
def createInvitationAt (validId : String → Bool) (projects : List ProjectDoc)
    (checkDb storeDb : List InvitationRec)
    (newId projectId senderId recipientId : String) :
    Except String InvitationRec × List InvitationRec :=
  if projectId = "" ∨ senderId = "" ∨ recipientId = "" then
    (.error "Project ID, sender ID, and recipient ID are required", storeDb)
  else if (validId projectId && validId senderId && validId recipientId)
      = false then
    (.error "Invalid ID format", storeDb)
  else if senderId == recipientId then
    (.error "You cannot invite yourself", storeDb)
  else
    match projects.find? (fun p => p.id == projectId
        && p.users.contains senderId) with
    | none => (.error "Project not found or user not authorized", storeDb)
    | some project =>
      if project.users.contains recipientId then
        (.error "User is already a member of this project", storeDb)
      else
        match checkDb.find? (fun i => i.project == projectId
            && i.recipient == recipientId && i.status == "pending") with
        | some _ =>
          (.error "An invitation is already pending for this user", storeDb)
        | none =>
          let newRec : InvitationRec :=
            ⟨newId, projectId, senderId, recipientId, "pending"⟩
          if insertAllowed invitationPendingIndex storeDb newRec then
            (.ok newRec, storeDb ++ [newRec])
          else
            (.error "An invitation already exists for this user", storeDb)

/-- A sequential `createInvitation` call: existence check and insert both
see the same storage state. -/
def createInvitation (validId : String → Bool) (projects : List ProjectDoc)
    (db : List InvitationRec) (newId projectId senderId recipientId : String) :
    Except String InvitationRec × List InvitationRec :=
  createInvitationAt validId projects db db newId projectId senderId recipientId

/-- Two concurrent `createInvitation` calls for the same
`(project, recipient)` pair in the racy interleaving: both existence checks
read the initial snapshot before either insert lands, then the inserts
apply to storage in order, guarded only by the declared index. -/
def concurrentCreatePair (validId : String → Bool) (projects : List ProjectDoc)
    (db : List InvitationRec) (id1 id2 projectId senderId recipientId : String) :
    Except String InvitationRec × Except String InvitationRec
      × List InvitationRec :=
  let r1 := createInvitationAt validId projects db db id1 projectId senderId
    recipientId
  let r2 := createInvitationAt validId projects db r1.2 id2 projectId senderId
    recipientId
  (r1.1, r2.1, r2.2)

/-- C4: the declared invitation index is not unique, so the storage layer
does not enforce the at-most-one-pending invariant: in the
check-then-insert race both concurrent `createInvitation` calls for
`(p1, r1)` succeed and TWO pending invitations for the pair persist —
the sequential duplicate check alone works (third conjunct), but the
claimed storage-layer uniqueness constraint is absent. -/
theorem C4_race_two_pending :
    invitationPendingIndex.unique = false
    ∧ (concurrentCreatePair (fun _ => true) [⟨"p1", "o1", ["o1", "s1"]⟩] []
        "i1" "i2" "p1" "s1" "r1").1 = .ok ⟨"i1", "p1", "s1", "r1", "pending"⟩
    ∧ (concurrentCreatePair (fun _ => true) [⟨"p1", "o1", ["o1", "s1"]⟩] []
        "i1" "i2" "p1" "s1" "r1").2.1
      = .ok ⟨"i2", "p1", "s1", "r1", "pending"⟩
    ∧ ((concurrentCreatePair (fun _ => true) [⟨"p1", "o1", ["o1", "s1"]⟩] []
        "i1" "i2" "p1" "s1" "r1").2.2.filter (fun i => i.project == "p1"
          && i.recipient == "r1" && i.status == "pending")).length = 2
    ∧ (createInvitation (fun _ => true) [⟨"p1", "o1", ["o1", "s1"]⟩]
        [⟨"i1", "p1", "s1", "r1", "pending"⟩] "i3" "p1" "s1" "r1").1
      = .error "An invitation is already pending for this user" := by
  decide

/-- `acceptInvitation` (`src/services/invitation.service.js` lines 91-130)
over explicit storage state: returns the call result plus the final
invitation and project collections.  Mirroring the source, the invitation's
status is persisted as `accepted` (`invitation.save()`) BEFORE the project
membership update (`findByIdAndUpdate` with `$addToSet`) is attempted. -/
def acceptInvitation (validId : String → Bool)
    (invitations : List InvitationRec) (projects : List ProjectDoc)
    (invitationId userId : String) :
    Except String (InvitationRec × ProjectDoc)
      × List InvitationRec × List ProjectDoc :=
  if invitationId = "" ∨ userId = "" then
    (.error "Invitation ID and user ID are required", invitations, projects)
  else if (validId invitationId && validId userId) = false then
    (.error "Invalid ID format", invitations, projects)
  else
    match invitations.find? (fun i => i.id == invitationId
        && i.recipient == userId && i.status == "pending") with
    | none =>
      (.error "Invitation not found or already processed", invitations,
        projects)
    | some inv =>
      let invitations1 := invitations.map (fun i =>
        if i.id == inv.id then { inv with status := "accepted" } else i)
      match projects.find? (fun p => p.id == inv.project) with
      | none => (.error "Project not found", invitations1, projects)
      | some p =>
        let p1 := { p with users := if p.users.contains userId then p.users
          else p.users ++ [userId] }
        let projects1 := projects.map (fun q => if q.id == p.id then p1 else q)
        (.ok ({ inv with status := "accepted" }, p1), invitations1, projects1)

/-- C10: `acceptInvitation` is not atomic across its two writes.  Whenever a
pending invitation for the acting user exists but its project no longer
does, the call throws `Project not found` AFTER persisting the invitation
as `accepted`: the final state has the invitation in the terminal
`accepted` status while the project collection is unchanged, so the acting
user was never added to any project — state changed on the error path. -/
theorem C10_accept_not_atomic (validId : String → Bool)
    (invitations : List InvitationRec) (projects : List ProjectDoc)
    (invitationId userId : String) (inv : InvitationRec)
    (h1 : invitationId ≠ "") (h2 : userId ≠ "")
    (h3 : validId invitationId = true) (h4 : validId userId = true)
    (h5 : invitations.find? (fun i => i.id == invitationId
      && i.recipient == userId && i.status == "pending") = some inv)
    (h6 : projects.find? (fun p => p.id == inv.project) = none) :
    acceptInvitation validId invitations projects invitationId userId
      = (.error "Project not found",
         invitations.map (fun i =>
           if i.id == inv.id then { inv with status := "accepted" } else i),
         projects) := by
  simp [acceptInvitation, h1, h2, h3, h4, h5, h6]

/-- Witness for C10 at concrete inputs: invitation `i1` is pending for user
`u7` on the vanished project `p9`; accepting yields the `Project not found`
error while the store now holds the invitation as `accepted` and no project
was touched. -/
theorem C10_accept_not_atomic_witness :
    acceptInvitation (fun _ => true) [⟨"i1", "p9", "s1", "u7", "pending"⟩] []
        "i1" "u7"
      = (.error "Project not found", [⟨"i1", "p9", "s1", "u7", "accepted"⟩],
         []) := by
  exact C10_accept_not_atomic (fun _ => true)
    [⟨"i1", "p9", "s1", "u7", "pending"⟩] [] "i1" "u7"
    ⟨"i1", "p9", "s1", "u7", "pending"⟩ (by decide) (by decide) rfl rfl
    (by decide) rfl
